import Mathlib

/-!
Shallow embedding of the agentscope-bricks generation components
(`src/agentscope_bricks/components/generations/…`) and the capability
registry (`src/agentscope_bricks/components/__init__.py`).

Conventions of the embedding:
* Python exceptions become the `PyError` inductive; a raising function
  returns `Except PyError α`.
* Every `arun` embedding also returns a `Nat`: the number of provider
  transport calls performed (0 or 1), so that before-any-network-call
  properties are statable.
* The credential lookup `get_api_key` is a call parameter `apiKey :
  Option String`; `none` is the failing lookup (the Python code catches
  the AssertionError and raises `ValueError`).
* The ambient correlation id `TracingUtil.get_request_id()` and string
  fields tested for Python truthiness are plain `String`s where `""`
  stands for absent/None: the code only ever branches on truthiness of
  these values.
* The non-deterministic `str(uuid.uuid4())` is a call parameter
  `freshId : String` (a uuid4 rendering is a 36-character string).
* Provider replies are call parameters: the transport is an external
  collaborator, so a reply record is the boundary value the code parses.
-/

namespace AgentscopeBricks

/-- Raised Python exceptions, as classified by the source:
`valueError` for the missing-credential `ValueError`, `runtimeError`
for the explicit backend/parse/empty-result `RuntimeError`s (the
interpolated `{response}` tail of each f-string is omitted from the
message), `keyError` for an unhandled `dict[...]` lookup on a missing
key, and `attributeError` for an unhandled attribute chain on a reply
object lacking the attribute (per the external SDK boundary this is
where `response.output.video_url` fails when the reply has no
`video_url`; a `None`-returning variant would fail the `video_url: str`
pydantic validation at the same point — either way an unhandled
structural error, which this constructor stands for). -/
inductive PyError where
  | valueError (msg : String)
  | runtimeError (msg : String)
  | keyError (key : String)
  | attributeError (attr : String)
  deriving DecidableEq, Repr

/-- First-match lookup in a dict rendered as a key/value list (Python
dict keys are unique, so first-match agrees with `d[k]` / `k in d`). -/
def dictLookup {α : Type} (k : String) : List (String × α) → Option α
  | [] => none
  | (k2, v) :: rest => if k2 = k then some v else dictLookup k rest

/-- One element of a message-content list in a wan2.6 multimodal reply:
either a plain string or a dict-shaped record (string-valued fields
suffice for the fields the parsers read). -/
inductive ContentItem where
  | str (s : String)
  | record (fields : List (String × String))
  deriving DecidableEq, Repr

/-- The `message.content` of one choice record: the shapes the parsers
distinguish with `isinstance` — a list of items, a bare string, a
dict-shaped record, or anything else (`other`, which matches no
`isinstance` branch and yields no artifacts). -/
inductive MessageContent where
  | list (items : List ContentItem)
  | str (s : String)
  | record (fields : List (String × String))
  | other
  deriving DecidableEq, Repr

/-- `response.output` of a wan2.6 multimodal reply: the `choices`
array, each choice reduced to its `message.content`
(`getattr(choice, "message", {})` / `getattr(message, "content", [])`
make absent intermediate fields behave as an empty content list,
which `MessageContent.list []` renders). -/
structure MultiModalOutput where
  choices : List MessageContent
  deriving DecidableEq, Repr

/-- A wan2.6 `AioMultiModalConversation.call` reply as the code reads
it: HTTP-level `status_code`, the `output` (`none` for an
absent/None/falsy output), and `request_id` (`""` for absent). -/
structure MultiModalResponse where
  status_code : Nat
  output : Option MultiModalOutput
  request_id : String
  deriving DecidableEq, Repr

/-- The per-item branch of the generation parser's inner loop
(image_generation_wan26.py lines 157-159): a dict item contributes its
`"image"` field when present; a non-dict item contributes nothing. -/
def genItemRef : ContentItem → Option String
  | .record fs => dictLookup "image" fs
  | .str _ => none

/-- The artifact references one choice contributes in
`ImageGenerationWan26.arun` (image_generation_wan26.py lines 153-163):
for list content, the `"image"` field of each dict item; a bare string
content is appended whole; dict content contributes its `"image"`
field; any other shape contributes nothing. -/
def genChoiceArtifacts : MessageContent → List String
  | .list items => items.filterMap genItemRef
  | .str s => [s]
  | .record fs => (dictLookup "image" fs).toList
  | .other => []

/-- The `results` accumulation loop of `ImageGenerationWan26.arun`:
all choices are traversed in order and each choice's artifacts are
appended in encounter order. -/
def extractResultsGen : List MessageContent → List String
  | [] => []
  | c :: rest => genChoiceArtifacts c ++ extractResultsGen rest

/-- `item.startswith(("http://", "https://"))` in image_edit_wan26.py,
rendered as character-list prefix tests (the same predicate as the
Python string method on these ASCII prefixes). -/
def isHttpUrl (s : String) : Bool :=
  "http://".data.isPrefixOf s.data || "https://".data.isPrefixOf s.data

/-- The per-item branch of the edit parser's inner loop
(image_edit_wan26.py lines 157-163): a dict item contributes its
`"image"` field; a string item is kept only when it starts with
`http://` or `https://`. -/
def editItemRef : ContentItem → Option String
  | .record fs => dictLookup "image" fs
  | .str s => if isHttpUrl s then some s else none

/-- The artifact references one choice contributes in
`ImageEditWan26.arun` (image_edit_wan26.py lines 153-175): for list
content, dict items contribute their `"image"` field and string items
are kept only when they start with `http://` or `https://`; a bare
string content is kept only under the same prefix test; dict content
contributes its `"image"` field. -/
def editChoiceArtifacts : MessageContent → List String
  | .list items => items.filterMap editItemRef
  | .str s => if isHttpUrl s then [s] else []
  | .record fs => (dictLookup "image" fs).toList
  | .other => []

/-- The `results` accumulation loop of `ImageEditWan26.arun` (the
`if choices:` guard is the identity on an empty list). -/
def extractResultsEdit : List MessageContent → List String
  | [] => []
  | c :: rest => editChoiceArtifacts c ++ extractResultsEdit rest

/-- `request_id` selection written as
`if not request_id: request_id = provider_rid if provider_rid else fresh`
(async_image_to_video_fl_wan22.py lines 171-176, and via `getattr ... or`
image_generation_wan26.py lines 172-175, image_edit_wan26.py lines
184-187): caller context first, else the provider reply's, else the
fresh uuid. -/
def pickRequestIdCtxFirst (ctx provider fresh : String) : String :=
  if ctx = "" then (if provider = "" then fresh else provider) else ctx

/-- `request_id = response.request_id or request_id or str(uuid.uuid4())`
(async_image_to_video_fl_wan22.py line 282): the provider reply's id
first, else caller context, else the fresh uuid. -/
def pickRequestIdProviderFirst (provider ctx fresh : String) : String :=
  if provider = "" then (if ctx = "" then fresh else ctx) else provider

/-- Output schema `ImageGenerationWan26Output` (results list and
request id; `request_id` is always set on the success path). -/
structure ImageGenerationWan26Output where
  results : List String
  request_id : String
  deriving DecidableEq, Repr

/-- `ImageGenerationWan26.arun` (image_generation_wan26.py lines
89-195). The payload construction (lines 102-132) does not influence
the embedded observables and is embedded separately as
`buildParametersGen`; the reply is the call parameter `response`. The
second component counts provider transport calls. -/
def imageGenerationWan26Arun (apiKey : Option String)
    (ctxRequestId freshId : String) (response : MultiModalResponse) :
    Except PyError ImageGenerationWan26Output × Nat :=
  match apiKey with
  | none => (Except.error (PyError.valueError "Please set valid DASHSCOPE_API_KEY!"), 0)
  | some _ =>
    if response.status_code ≠ 200 then
      (Except.error (PyError.runtimeError "Wan 2.6 image generation failed"), 1)
    else
      match response.output with
      | none =>
          (Except.error (PyError.runtimeError "Wan 2.6 image generation failed"), 1)
      | some out =>
          let results := extractResultsGen out.choices
          if results = [] then
            (Except.error (PyError.runtimeError "No image URLs found in response"), 1)
          else
            (Except.ok
              { results := results,
                request_id :=
                  pickRequestIdCtxFirst ctxRequestId response.request_id freshId }, 1)

/-- Output schema `ImageGenOutput` of image_edit_wan26.py. -/
structure ImageGenOutput where
  results : List String
  request_id : String
  deriving DecidableEq, Repr

/-- `ImageEditWan26.arun` (image_edit_wan26.py lines 93-207): same
checks as the generation component, the edit-specific parser, and the
edit-specific error messages. -/
def imageEditWan26Arun (apiKey : Option String)
    (ctxRequestId freshId : String) (response : MultiModalResponse) :
    Except PyError ImageGenOutput × Nat :=
  match apiKey with
  | none => (Except.error (PyError.valueError "Please set valid DASHSCOPE_API_KEY!"), 0)
  | some _ =>
    if response.status_code ≠ 200 then
      (Except.error (PyError.runtimeError "Wanx 2.6 image generation failed"), 1)
    else
      match response.output with
      | none =>
          (Except.error (PyError.runtimeError "Wanx 2.6 image generation failed"), 1)
      | some out =>
          let results := extractResultsEdit out.choices
          if results = [] then
            (Except.error (PyError.runtimeError "No image found in response"), 1)
          else
            (Except.ok
              { results := results,
                request_id :=
                  pickRequestIdCtxFirst ctxRequestId response.request_id freshId }, 1)

/-- `response.output` of a dashscope `AioVideoSynthesis` reply:
`task_id`, `task_status`, and the result field `video_url`, which is
present only once the provider has produced a video (`none` = the
attribute is absent from the reply object). -/
structure VideoSynthesisOutput where
  task_id : String
  task_status : String
  video_url : Option String
  deriving DecidableEq, Repr

/-- A dashscope `AioVideoSynthesis` submit/fetch reply as the code
reads it: `status_code`, `output` (`none` = absent/falsy), and
`request_id` (`""` = absent). -/
structure VideoSynthesisResponse where
  status_code : Nat
  output : Option VideoSynthesisOutput
  request_id : String
  deriving DecidableEq, Repr

/-- Output schema `ImageToVideoByFirstAndLastFrameWan22SubmitOutput`. -/
structure Wan22SubmitOutput where
  task_id : String
  task_status : String
  request_id : String
  deriving DecidableEq, Repr

/-- `ImageToVideoByFirstAndLastFrameWan22Submit.arun`
(async_image_to_video_fl_wan22.py lines 108-183): raises `ValueError`
on a failing credential lookup before the transport call; raises
`RuntimeError` when `status_code != 200`, when `output` is falsy, or
when `output.task_status` is `FAILED`/`CANCELED`; otherwise returns
the submit output with the ctx-first request id. -/
def imageToVideoFlWan22SubmitArun (apiKey : Option String)
    (ctxRequestId freshId : String) (response : VideoSynthesisResponse) :
    Except PyError Wan22SubmitOutput × Nat :=
  match apiKey with
  | none => (Except.error (PyError.valueError "Please set valid DASHSCOPE_API_KEY!"), 0)
  | some _ =>
    if response.status_code ≠ 200 then
      (Except.error (PyError.runtimeError "Failed to submit keyframe-to-video task"), 1)
    else
      match response.output with
      | none =>
          (Except.error (PyError.runtimeError "Failed to submit keyframe-to-video task"), 1)
      | some out =>
          if out.task_status = "FAILED" ∨ out.task_status = "CANCELED" then
            (Except.error (PyError.runtimeError "Failed to submit keyframe-to-video task"), 1)
          else
            (Except.ok
              { task_id := out.task_id,
                task_status := out.task_status,
                request_id :=
                  pickRequestIdCtxFirst ctxRequestId response.request_id freshId }, 1)

/-- Output schema `ImageToVideoByFirstAndLastFrameWan22FetchOutput`
(`video_url` is a required string field). -/
structure Wan22FetchOutput where
  video_url : String
  task_id : String
  task_status : String
  request_id : String
  deriving DecidableEq, Repr

/-- `ImageToVideoByFirstAndLastFrameWan22Fetch.arun`
(async_image_to_video_fl_wan22.py lines 241-289): same credential and
reply checks as the submit side, then the provider-first request id
(line 282) and the unconditional `response.output.video_url` read
(line 285), which is an unhandled structural error when the reply has
no `video_url`. -/
def imageToVideoFlWan22FetchArun (apiKey : Option String)
    (ctxRequestId freshId : String) (response : VideoSynthesisResponse) :
    Except PyError Wan22FetchOutput × Nat :=
  match apiKey with
  | none => (Except.error (PyError.valueError "Please set valid DASHSCOPE_API_KEY!"), 0)
  | some _ =>
    if response.status_code ≠ 200 then
      (Except.error (PyError.runtimeError "Failed to fetch keyframe-to-video result"), 1)
    else
      match response.output with
      | none =>
          (Except.error (PyError.runtimeError "Failed to fetch keyframe-to-video result"), 1)
      | some out =>
          if out.task_status = "FAILED" ∨ out.task_status = "CANCELED" then
            (Except.error (PyError.runtimeError "Failed to fetch keyframe-to-video result"), 1)
          else
            match out.video_url with
            | none => (Except.error (PyError.attributeError "video_url"), 1)
            | some url =>
                (Except.ok
                  { video_url := url,
                    task_id := out.task_id,
                    task_status := out.task_status,
                    request_id :=
                      pickRequestIdProviderFirst response.request_id ctxRequestId freshId }, 1)

/-- The `output` object of the wan2.6 video-to-video creation reply
JSON. The code reads only `["task_id"]`; `task_status` is carried by
the provider reply but never read by `VideoToVideoW26Submit.arun`
(`none` = the key is absent). -/
structure V2VOutputJson where
  task_id : Option String
  task_status : Option String
  deriving DecidableEq, Repr

/-- The wan2.6 video-to-video creation reply JSON body: the `output`
key (`none` = absent) and the `request_id` key, which the code never
reads. -/
structure V2VReplyJson where
  output : Option V2VOutputJson
  request_id : Option String
  deriving DecidableEq, Repr

/-- Output schema `VideoToVideoGenerationWan26Output` (task id and
request id only; no task status field). -/
structure VideoToVideoGenerationWan26Output where
  task_id : String
  request_id : String
  deriving DecidableEq, Repr

/-- `VideoToVideoW26Submit.arun` (async_video_to_video_wan26.py lines
92-151): raises `ValueError` on a failing credential lookup before any
transport; raises `RuntimeError` only when the HTTP status is not 200;
on a 200 reply it reads `response_json["output"]["task_id"]` (an
unhandled `KeyError` when either key is absent) and returns — there is
no `task_status` inspection — with
`request_id = TracingUtil.get_request_id() or str(uuid.uuid4())`
(line 146; the reply's `request_id` is never consulted). -/
def videoToVideoW26SubmitArun (apiKey : Option String)
    (ctxRequestId freshId : String) (respStatus : Nat) (respJson : V2VReplyJson) :
    Except PyError VideoToVideoGenerationWan26Output × Nat :=
  match apiKey with
  | none => (Except.error (PyError.valueError "Please set valid DASHSCOPE_API_KEY!"), 0)
  | some _ =>
    if respStatus ≠ 200 then
      (Except.error (PyError.runtimeError "Failed to create video task"), 1)
    else
      match respJson.output with
      | none => (Except.error (PyError.keyError "output"), 1)
      | some out =>
          match out.task_id with
          | none => (Except.error (PyError.keyError "task_id"), 1)
          | some tid =>
              (Except.ok
                { task_id := tid,
                  request_id := if ctxRequestId = "" then freshId else ctxRequestId }, 1)

/-- A value of a provider-payload `parameters` dict entry. -/
inductive ParamValue where
  | str (s : String)
  | int (i : Int)
  | bool (b : Bool)
  deriving DecidableEq, Repr

/-- Input schema `ImageGenerationWan26Input` (the mcp `ctx` handle is
not part of payload construction). `watermark` is typed
`Optional[bool]`, so the string-normalization branch of lines 111-118
is the identity here. -/
structure ImageGenerationWan26Input where
  prompt : String
  negative_prompt : Option String
  size : Option String
  prompt_extend : Option Bool
  n : Option Int
  seed : Option Int
  watermark : Option Bool
  deriving DecidableEq, Repr

/-- The `parameters` dict built by `ImageGenerationWan26.arun`
(image_generation_wan26.py lines 120-132), entries in insertion
order: `negative_prompt` when truthy; `size` when truthy and not
exactly `"1024*1024"`; `n`, `seed`, `watermark`, `prompt_extend`
when not None. -/
def buildParametersGen (args : ImageGenerationWan26Input) :
    List (String × ParamValue) :=
  (match args.negative_prompt with
   | some s => if s = "" then [] else [("negative_prompt", ParamValue.str s)]
   | none => []) ++
  (match args.size with
   | some s => if s = "" ∨ s = "1024*1024" then [] else [("size", ParamValue.str s)]
   | none => []) ++
  (match args.n with
   | some k => [("n", ParamValue.int k)]
   | none => []) ++
  (match args.seed with
   | some k => [("seed", ParamValue.int k)]
   | none => []) ++
  (match args.watermark with
   | some b => [("watermark", ParamValue.bool b)]
   | none => []) ++
  (match args.prompt_extend with
   | some b => [("prompt_extend", ParamValue.bool b)]
   | none => [])

/-- The component classes imported and listed by
`src/agentscope_bricks/components/__init__.py`, one constructor per
Python class. -/
inductive ComponentClass where
  | ImageGeneration
  | ImageEdit
  | ImageStyleRepaint
  | ImageOutPaintingSubmit
  | ImageOutPaintingFetch
  | ImageOutPaintingAuto
  | TextToVideoSubmit
  | TextToVideoFetch
  | ImageToVideoSubmit
  | ImageToVideoFetch
  | SpeechToVideoSubmit
  | SpeechToVideoFetch
  | ImageToVideoByFirstAndLastFrameWan22Submit
  | WanVideoFetch
  | ImageGenerationWan25
  | ImageEditWan25
  | TextToVideoWan25Submit
  | TextToVideoWan25Fetch
  | ImageToVideoWan25Submit
  | ImageToVideoWan25Fetch
  | QwenImageGen
  | QwenImageEdit
  | QwenImageEditNew
  | ModelstudioSearchLite
  | SpeechToText
  | MultichannelSpeechToText
  | QwenTextToSpeech
  | ImageGenerationWan26
  | TextToVideoWan26Submit
  | ImageToVideoWan26Submit
  | ImageEditWan26
  | WanImageInterleaveGeneration
  | VideoToVideoW26Submit
  | ZImageGeneration
  deriving DecidableEq, Repr

/-- `McpServerMeta` (components/__init__.py lines 103-111): a bundle's
instruction string and its ordered component list. The pydantic model
validates field types only; it has no uniqueness validator. -/
structure McpServerMeta where
  instructions : String
  components : List ComponentClass
  deriving DecidableEq, Repr

/-- The registry dict `mcp_server_metas` (components/__init__.py lines
114-189), bundles in insertion order, each bundle's component list in
source order. Construction is a plain dict literal: no check beyond
pydantic field typing runs. -/
def mcp_server_metas : List (String × McpServerMeta) :=
  [("modelstudio_wan_image",
    { instructions := "基于通义万相大模型的智能图像生成服务，提供高质量的图像处理和编辑功能",
      components :=
        [ComponentClass.ImageGeneration, ComponentClass.ImageEdit,
         ComponentClass.ImageStyleRepaint, ComponentClass.ImageOutPaintingSubmit,
         ComponentClass.ImageOutPaintingFetch, ComponentClass.ImageOutPaintingAuto] }),
   ("modelstudio_wan_video",
    { instructions := "基于通义万相大模型提供AI视频生成服务，支持文本到视频、图像到视频和语音到视频的多模态生成功能",
      components :=
        [ComponentClass.TextToVideoSubmit, ComponentClass.TextToVideoFetch,
         ComponentClass.ImageToVideoSubmit, ComponentClass.ImageToVideoFetch,
         ComponentClass.SpeechToVideoSubmit, ComponentClass.SpeechToVideoFetch,
         ComponentClass.ImageToVideoByFirstAndLastFrameWan22Submit,
         ComponentClass.WanVideoFetch] }),
   ("modelstudio_wan25_media",
    { instructions := "基于通义万相大模型2.5版本提供的图像和视频生成服务",
      components :=
        [ComponentClass.ImageGenerationWan25, ComponentClass.ImageEditWan25,
         ComponentClass.TextToVideoWan25Submit, ComponentClass.TextToVideoWan25Fetch,
         ComponentClass.ImageToVideoWan25Submit, ComponentClass.ImageToVideoWan25Fetch] }),
   ("modelstudio_qwen_image",
    { instructions := "基于通义千问大模型的智能图像生成服务，提供高质量的图像处理和编辑功能",
      components :=
        [ComponentClass.QwenImageGen, ComponentClass.QwenImageEdit,
         ComponentClass.QwenImageEditNew] }),
   ("modelstudio_web_search",
    { instructions := "提供实时互联网搜索服务，提供准确及时的信息检索功能",
      components := [ComponentClass.ModelstudioSearchLite] }),
   ("modelstudio_speech_to_text",
    { instructions := "录音文件的语音识别服务，支持多种音频格式的语音转文字功能",
      components := [ComponentClass.SpeechToText, ComponentClass.MultichannelSpeechToText] }),
   ("modelstudio_qwen_text_to_speech",
    { instructions := "基于通义千问大模型的语音合成服务，支持多种语言语音合成功能",
      components := [ComponentClass.QwenTextToSpeech] }),
   ("modelstudio_wan26_media",
    { instructions := "基于通义万相大模型2.6版本提供的图像和视频生成服务",
      components :=
        [ComponentClass.ImageGenerationWan26, ComponentClass.TextToVideoWan26Submit,
         ComponentClass.ImageToVideoWan26Submit, ComponentClass.WanVideoFetch,
         ComponentClass.ImageEditWan26, ComponentClass.WanImageInterleaveGeneration,
         ComponentClass.VideoToVideoW26Submit] }),
   ("modelstudio_z_image",
    { instructions := "基于通义Z-Image大模型的智能图像生成服务，是一款轻量级文生图模型，可快速生成图像，支持中英文字渲染，并灵活适配多种分辨率与宽高比例。",
      components := [ComponentClass.ZImageGeneration] })]

/-- All components across all bundles of the registry, bundles and
components in source order. -/
def allRegistryComponents : List ComponentClass :=
  mcp_server_metas.foldr (fun p acc => p.2.components ++ acc) []

/-- Modelled from the spec: the `name` class attribute of each
component. The source files of most component classes are not under
src/; the spec says only that `ComponentSpec.name` is a string
identifying the component, so each such class is assigned its class
identifier as name — one class has exactly one name either way, which
is all the registry facts below use. The five classes whose sources
are present carry their real `name` strings. -/
def componentName : ComponentClass → String
  | .ImageGeneration => "ImageGeneration"
  | .ImageEdit => "ImageEdit"
  | .ImageStyleRepaint => "ImageStyleRepaint"
  | .ImageOutPaintingSubmit => "ImageOutPaintingSubmit"
  | .ImageOutPaintingFetch => "ImageOutPaintingFetch"
  | .ImageOutPaintingAuto => "ImageOutPaintingAuto"
  | .TextToVideoSubmit => "TextToVideoSubmit"
  | .TextToVideoFetch => "TextToVideoFetch"
  | .ImageToVideoSubmit => "ImageToVideoSubmit"
  | .ImageToVideoFetch => "ImageToVideoFetch"
  | .SpeechToVideoSubmit => "SpeechToVideoSubmit"
  | .SpeechToVideoFetch => "SpeechToVideoFetch"
  | .ImageToVideoByFirstAndLastFrameWan22Submit =>
      "modelstudio_image_to_video_fl_wan22_submit_task"
  | .WanVideoFetch => "WanVideoFetch"
  | .ImageGenerationWan25 => "ImageGenerationWan25"
  | .ImageEditWan25 => "ImageEditWan25"
  | .TextToVideoWan25Submit => "TextToVideoWan25Submit"
  | .TextToVideoWan25Fetch => "TextToVideoWan25Fetch"
  | .ImageToVideoWan25Submit => "ImageToVideoWan25Submit"
  | .ImageToVideoWan25Fetch => "ImageToVideoWan25Fetch"
  | .QwenImageGen => "QwenImageGen"
  | .QwenImageEdit => "QwenImageEdit"
  | .QwenImageEditNew => "QwenImageEditNew"
  | .ModelstudioSearchLite => "ModelstudioSearchLite"
  | .SpeechToText => "SpeechToText"
  | .MultichannelSpeechToText => "MultichannelSpeechToText"
  | .QwenTextToSpeech => "QwenTextToSpeech"
  | .ImageGenerationWan26 => "modelstudio_wanx26_image_generation"
  | .TextToVideoWan26Submit => "TextToVideoWan26Submit"
  | .ImageToVideoWan26Submit => "ImageToVideoWan26Submit"
  | .ImageEditWan26 => "modelstudio_image_edit_wan26"
  | .WanImageInterleaveGeneration => "WanImageInterleaveGeneration"
  | .VideoToVideoW26Submit => "modelstudio_video_to_video_wan26_submit_task"
  | .ZImageGeneration => "ZImageGeneration"

/-! ## Spec-side reference definitions

Definitions below named `spec…` follow the spec's words ("all
non-empty artifact references found are collected, in encounter
order", choices outer, content items inner) rather than the source;
they exist to be compared with the source-derived extraction
functions. -/

/-- A content item that is a dict-shaped record (the shape in which
the provider nests image artifacts inside choices). -/
def isStructuredItem : ContentItem → Bool
  | .record _ => true
  | .str _ => false

/-- A choice whose message content is a list of dict-shaped records:
the "artifacts nested inside choice records" reply family. -/
def isRecordListChoice : MessageContent → Bool
  | .list items => items.all isStructuredItem
  | _ => false

/-- Spec-side: the image reference a single content item carries. -/
def specItemImageRef : ContentItem → Option String
  | .record fs => dictLookup "image" fs
  | .str _ => none

/-- Spec-side: the artifact references of one choice, in item order. -/
def specChoiceImageRefs : MessageContent → List String
  | .list items => items.filterMap specItemImageRef
  | _ => []

/-- Spec-side: every discoverable artifact reference of every choice,
choices in order, each choice's items in order, none dropped. -/
def specDiscoverableRefs : List MessageContent → List String
  | [] => []
  | c :: rest => specChoiceImageRefs c ++ specDiscoverableRefs rest

/-! ## Helper lemmas -/

theorem pickRequestIdCtxFirst_ne_empty (ctx provider fresh : String)
    (h : fresh ≠ "") : pickRequestIdCtxFirst ctx provider fresh ≠ "" := by
  unfold pickRequestIdCtxFirst
  by_cases hc : ctx = ""
  · by_cases hp : provider = ""
    · simp [hc, hp]; assumption
    · simp [hc, hp]
  · simp [hc]

theorem pickRequestIdProviderFirst_ne_empty (provider ctx fresh : String)
    (h : fresh ≠ "") : pickRequestIdProviderFirst provider ctx fresh ≠ "" := by
  unfold pickRequestIdProviderFirst
  by_cases hp : provider = ""
  · by_cases hc : ctx = ""
    · simp [hp, hc]; assumption
    · simp [hp, hc]
  · simp [hp]

theorem dictLookup_append {α : Type} (k : String) (l1 l2 : List (String × α)) :
    dictLookup k (l1 ++ l2) =
      (match dictLookup k l1 with
       | some v => some v
       | none => dictLookup k l2) := by
  induction l1 with
  | nil => rfl
  | cons p rest ih =>
    obtain ⟨k2, v⟩ := p
    by_cases hk : k2 = k <;> simp [dictLookup, hk, ih]

theorem filterMap_edit_eq_spec (items : List ContentItem)
    (h : items.all isStructuredItem = true) :
    items.filterMap editItemRef = items.filterMap specItemImageRef := by
  apply List.filterMap_congr
  intro it hit
  cases it with
  | record fs => rfl
  | str s =>
    rw [List.all_eq_true] at h
    have := h _ hit
    simp [isStructuredItem] at this

theorem filterMap_gen_eq_spec (items : List ContentItem) :
    items.filterMap genItemRef = items.filterMap specItemImageRef := by
  apply List.filterMap_congr
  intro it hit
  cases it with
  | record fs => rfl
  | str s => rfl

theorem gen_success_shape (k ctx fresh : String) (resp : MultiModalResponse)
    (out : MultiModalOutput)
    (h1 : resp.status_code = 200) (h2 : resp.output = some out)
    (h3 : extractResultsGen out.choices ≠ []) :
    imageGenerationWan26Arun (some k) ctx fresh resp =
      (Except.ok { results := extractResultsGen out.choices,
                   request_id := pickRequestIdCtxFirst ctx resp.request_id fresh }, 1) := by
  unfold imageGenerationWan26Arun
  rw [h2]
  simp [h1, h3]

theorem edit_success_shape (k ctx fresh : String) (resp : MultiModalResponse)
    (out : MultiModalOutput)
    (h1 : resp.status_code = 200) (h2 : resp.output = some out)
    (h3 : extractResultsEdit out.choices ≠ []) :
    imageEditWan26Arun (some k) ctx fresh resp =
      (Except.ok { results := extractResultsEdit out.choices,
                   request_id := pickRequestIdCtxFirst ctx resp.request_id fresh }, 1) := by
  unfold imageEditWan26Arun
  rw [h2]
  simp [h1, h3]

theorem gen_empty_results_shape (k ctx fresh : String) (resp : MultiModalResponse)
    (out : MultiModalOutput)
    (h1 : resp.status_code = 200) (h2 : resp.output = some out)
    (h3 : extractResultsGen out.choices = []) :
    imageGenerationWan26Arun (some k) ctx fresh resp =
      (Except.error (PyError.runtimeError "No image URLs found in response"), 1) := by
  unfold imageGenerationWan26Arun
  rw [h2]
  simp [h1, h3]

theorem edit_empty_results_shape (k ctx fresh : String) (resp : MultiModalResponse)
    (out : MultiModalOutput)
    (h1 : resp.status_code = 200) (h2 : resp.output = some out)
    (h3 : extractResultsEdit out.choices = []) :
    imageEditWan26Arun (some k) ctx fresh resp =
      (Except.error (PyError.runtimeError "No image found in response"), 1) := by
  unfold imageEditWan26Arun
  rw [h2]
  simp [h1, h3]

theorem wan22_submit_terminal_shape (k ctx fresh : String)
    (resp : VideoSynthesisResponse) (out : VideoSynthesisOutput)
    (h2 : resp.output = some out)
    (hterm : out.task_status = "FAILED" ∨ out.task_status = "CANCELED") :
    imageToVideoFlWan22SubmitArun (some k) ctx fresh resp =
      (Except.error (PyError.runtimeError "Failed to submit keyframe-to-video task"), 1) := by
  unfold imageToVideoFlWan22SubmitArun
  rw [h2]
  by_cases hs : resp.status_code = 200
  · simp [hs, hterm]
  · simp [hs]

theorem wan22_submit_missing_output_shape (k ctx fresh : String)
    (resp : VideoSynthesisResponse) (h2 : resp.output = none) :
    imageToVideoFlWan22SubmitArun (some k) ctx fresh resp =
      (Except.error (PyError.runtimeError "Failed to submit keyframe-to-video task"), 1) := by
  unfold imageToVideoFlWan22SubmitArun
  rw [h2]
  by_cases hs : resp.status_code = 200 <;> simp [hs]

theorem wan22_submit_success_shape (k ctx fresh : String)
    (resp : VideoSynthesisResponse) (out : VideoSynthesisOutput)
    (h1 : resp.status_code = 200) (h2 : resp.output = some out)
    (h3 : out.task_status ≠ "FAILED") (h4 : out.task_status ≠ "CANCELED") :
    imageToVideoFlWan22SubmitArun (some k) ctx fresh resp =
      (Except.ok { task_id := out.task_id, task_status := out.task_status,
                   request_id := pickRequestIdCtxFirst ctx resp.request_id fresh }, 1) := by
  unfold imageToVideoFlWan22SubmitArun
  rw [h2]
  simp [h1, h3, h4]

theorem wan22_fetch_success_shape (k ctx fresh : String)
    (resp : VideoSynthesisResponse) (out : VideoSynthesisOutput) (url : String)
    (h1 : resp.status_code = 200) (h2 : resp.output = some out)
    (h3 : out.task_status ≠ "FAILED") (h4 : out.task_status ≠ "CANCELED")
    (h5 : out.video_url = some url) :
    imageToVideoFlWan22FetchArun (some k) ctx fresh resp =
      (Except.ok { video_url := url, task_id := out.task_id,
                   task_status := out.task_status,
                   request_id := pickRequestIdProviderFirst resp.request_id ctx fresh }, 1) := by
  unfold imageToVideoFlWan22FetchArun
  rw [h2]
  simp [h1, h3, h4, h5]

theorem wan22_fetch_missing_url_shape (k ctx fresh : String)
    (resp : VideoSynthesisResponse) (out : VideoSynthesisOutput)
    (h1 : resp.status_code = 200) (h2 : resp.output = some out)
    (h3 : out.task_status ≠ "FAILED") (h4 : out.task_status ≠ "CANCELED")
    (h5 : out.video_url = none) :
    imageToVideoFlWan22FetchArun (some k) ctx fresh resp =
      (Except.error (PyError.attributeError "video_url"), 1) := by
  unfold imageToVideoFlWan22FetchArun
  rw [h2]
  simp [h1, h3, h4, h5]

theorem v2v_submit_success_shape (k ctx fresh : String)
    (rj : V2VReplyJson) (out : V2VOutputJson) (tid : String)
    (h1 : rj.output = some out) (h2 : out.task_id = some tid) :
    videoToVideoW26SubmitArun (some k) ctx fresh 200 rj =
      (Except.ok { task_id := tid,
                   request_id := if ctx = "" then fresh else ctx }, 1) := by
  unfold videoToVideoW26SubmitArun
  rw [h1]
  simp [h2]

theorem v2v_submit_missing_output_shape (k ctx fresh : String)
    (rj : V2VReplyJson) (h1 : rj.output = none) :
    videoToVideoW26SubmitArun (some k) ctx fresh 200 rj =
      (Except.error (PyError.keyError "output"), 1) := by
  unfold videoToVideoW26SubmitArun
  rw [h1]
  simp

theorem v2v_submit_bad_status_shape (k ctx fresh : String) (st : Nat)
    (rj : V2VReplyJson) (h1 : st ≠ 200) :
    videoToVideoW26SubmitArun (some k) ctx fresh st rj =
      (Except.error (PyError.runtimeError "Failed to create video task"), 1) := by
  unfold videoToVideoW26SubmitArun
  simp [h1]

/-! ## Claim theorems -/

/-- C1 counterexample: the wan2.6 video-to-video submit, given a
200 reply whose output carries `task_status = "FAILED"`, returns an
output object containing the task id instead of raising — refuting
"every submit … raises … and never returns a task handle". -/
theorem v2vSubmit_returns_handle_on_failed_task :
    videoToVideoW26SubmitArun (some "sk-key") "" "fresh-id" 200
      { output := some { task_id := some "t1", task_status := some "FAILED" },
        request_id := some "r1" } =
    (Except.ok { task_id := "t1", request_id := "fresh-id" }, 1) := by rfl

/-- C1 (amended): the wan2.2 keyframe submit raises its terminal-task
`RuntimeError` on every reply whose `task_status` is FAILED or
CANCELED and so never returns a handle; the wan2.6 video-to-video
submit never inspects `task_status` — on any 200 reply that carries a
task id it returns an output containing that task id, whatever the
task status. -/
theorem submit_on_terminal_status :
    (∀ (k ctx fresh : String) (resp : VideoSynthesisResponse)
        (out : VideoSynthesisOutput),
      resp.output = some out →
      out.task_status = "FAILED" ∨ out.task_status = "CANCELED" →
      imageToVideoFlWan22SubmitArun (some k) ctx fresh resp =
        (Except.error
          (PyError.runtimeError "Failed to submit keyframe-to-video task"), 1)) ∧
    (∀ (k ctx fresh : String) (rj : V2VReplyJson) (out : V2VOutputJson)
        (tid : String),
      rj.output = some out → out.task_id = some tid →
      videoToVideoW26SubmitArun (some k) ctx fresh 200 rj =
        (Except.ok { task_id := tid,
                     request_id := if ctx = "" then fresh else ctx }, 1)) := by
  constructor
  · intro k ctx fresh resp out h2 hterm
    exact wan22_submit_terminal_shape k ctx fresh resp out h2 hterm
  · intro k ctx fresh rj out tid h1 h2
    exact v2v_submit_success_shape k ctx fresh rj out tid h1 h2

/-- C1 witness: both halves of the amended claim at concrete replies
(a CANCELED wan2.2 reply raises; a FAILED wan2.6 200 reply yields a
handle). -/
theorem submit_on_terminal_status_witness :
    imageToVideoFlWan22SubmitArun (some "sk-key") "ctx-id" "fresh-id"
      { status_code := 200,
        output := some { task_id := "t9", task_status := "CANCELED", video_url := none },
        request_id := "r9" } =
      (Except.error
        (PyError.runtimeError "Failed to submit keyframe-to-video task"), 1) ∧
    videoToVideoW26SubmitArun (some "sk-key") "ctx-id" "fresh-id" 200
      { output := some { task_id := some "t2", task_status := some "FAILED" },
        request_id := some "r2" } =
      (Except.ok { task_id := "t2",
                   request_id := if "ctx-id" = "" then "fresh-id" else "ctx-id" }, 1) :=
  ⟨submit_on_terminal_status.1 "sk-key" "ctx-id" "fresh-id" _ _ rfl (Or.inr rfl),
   submit_on_terminal_status.2 "sk-key" "ctx-id" "fresh-id" _ _ "t2" rfl rfl⟩

/-- C2 counterexample: in the registry as built, the component
`WanVideoFetch` is listed by both the `modelstudio_wan_video` and the
`modelstudio_wan26_media` bundles, so its name occurs twice across
all bundles — component names are not unique and no construction-time
check rejected the collision. -/
theorem registry_wan_video_fetch_in_two_bundles :
    (allRegistryComponents.map componentName).count
        (componentName ComponentClass.WanVideoFetch) = 2 ∧
    ComponentClass.WanVideoFetch ∈
      ((dictLookup "modelstudio_wan_video" mcp_server_metas).getD
        { instructions := "", components := [] }).components ∧
    ComponentClass.WanVideoFetch ∈
      ((dictLookup "modelstudio_wan26_media" mcp_server_metas).getD
        { instructions := "", components := [] }).components := by
  refine ⟨by decide, by decide, by decide⟩

/-- C2 (amended): registry construction performs no uniqueness check
and the built registry lists the `WanVideoFetch` component in two
bundles, so under every assignment of names to component classes (one
class has one name) the flattened registry contains a duplicated
component name. -/
theorem registry_duplicate_component_under_any_naming
    (f : ComponentClass → String) :
    2 ≤ (allRegistryComponents.map f).count (f ComponentClass.WanVideoFetch) := by
  have h : 2 ≤ allRegistryComponents.count ComponentClass.WanVideoFetch := by decide
  exact le_trans h (List.count_le_count_map _ _ _)

/-- C2 witness: the amended claim applied to the concrete name
assignment of this file. -/
theorem registry_duplicate_component_witness :
    2 ≤ (allRegistryComponents.map componentName).count
        (componentName ComponentClass.WanVideoFetch) :=
  registry_duplicate_component_under_any_naming componentName

/-- C3: the wan2.2 fetch, given a 200 reply in the non-terminal
PENDING state (which per the provider interface carries no
`video_url`), does not return a non-terminal indication: it fails
with an unhandled structural error on the unconditional
`response.output.video_url` read. -/
theorem wan22Fetch_errors_on_pending_reply :
    imageToVideoFlWan22FetchArun (some "sk-key") "" "fresh-id"
      { status_code := 200,
        output := some { task_id := "t1", task_status := "PENDING", video_url := none },
        request_id := "r1" } =
    (Except.error (PyError.attributeError "video_url"), 1) := by rfl

/-- C4 counterexample: the wan2.6 video-to-video submit, given a 200
reply whose JSON lacks the `output` key entirely, fails with an
unhandled `KeyError` rather than a backend-call error. -/
theorem v2vSubmit_keyerror_on_missing_output :
    videoToVideoW26SubmitArun (some "sk-key") "" "fresh-id" 200
      { output := none, request_id := some "r1" } =
    (Except.error (PyError.keyError "output"), 1) := by rfl

/-- C4 (amended): the wan2.2 keyframe submit raises its backend-call
`RuntimeError` whenever the reply lacks `output`; the wan2.6
video-to-video submit raises its backend-call `RuntimeError` only for
a non-200 transport status, and a 200 reply lacking `output` escapes
as an unhandled `KeyError` instead. -/
theorem submit_on_missing_output :
    (∀ (k ctx fresh : String) (resp : VideoSynthesisResponse),
      resp.output = none →
      imageToVideoFlWan22SubmitArun (some k) ctx fresh resp =
        (Except.error
          (PyError.runtimeError "Failed to submit keyframe-to-video task"), 1)) ∧
    (∀ (k ctx fresh : String) (rj : V2VReplyJson),
      rj.output = none →
      videoToVideoW26SubmitArun (some k) ctx fresh 200 rj =
        (Except.error (PyError.keyError "output"), 1)) ∧
    (∀ (k ctx fresh : String) (st : Nat) (rj : V2VReplyJson),
      st ≠ 200 →
      videoToVideoW26SubmitArun (some k) ctx fresh st rj =
        (Except.error (PyError.runtimeError "Failed to create video task"), 1)) := by
  refine ⟨?_, ?_, ?_⟩
  · intro k ctx fresh resp h2
    exact wan22_submit_missing_output_shape k ctx fresh resp h2
  · intro k ctx fresh rj h1
    exact v2v_submit_missing_output_shape k ctx fresh rj h1
  · intro k ctx fresh st rj h1
    exact v2v_submit_bad_status_shape k ctx fresh st rj h1

/-- C4 witness: the amended claim at concrete replies (wan2.2 reply
with falsy output; wan2.6 200 reply without `output`; wan2.6 500
reply). -/
theorem submit_on_missing_output_witness :
    imageToVideoFlWan22SubmitArun (some "sk-key") "" "fresh-id"
      { status_code := 200, output := none, request_id := "r1" } =
      (Except.error
        (PyError.runtimeError "Failed to submit keyframe-to-video task"), 1) ∧
    videoToVideoW26SubmitArun (some "sk-key") "" "fresh-id" 200
      { output := none, request_id := none } =
      (Except.error (PyError.keyError "output"), 1) ∧
    videoToVideoW26SubmitArun (some "sk-key") "" "fresh-id" 500
      { output := none, request_id := none } =
      (Except.error (PyError.runtimeError "Failed to create video task"), 1) :=
  ⟨submit_on_missing_output.1 "sk-key" "" "fresh-id" _ rfl,
   submit_on_missing_output.2.1 "sk-key" "" "fresh-id" _ rfl,
   submit_on_missing_output.2.2 "sk-key" "" "fresh-id" 500 _ (by decide)⟩

/-- C5 counterexample: the wan2.2 fetch, given a SUCCEEDED reply whose
`video_url` is the empty string (zero non-empty artifact references
discoverable), raises nothing and returns a success output carrying
the empty artifact — refuting "raises an empty-result error; a
success result with an empty artifact list is never returned". -/
theorem wan22Fetch_success_with_empty_video_url :
    imageToVideoFlWan22FetchArun (some "sk-key") "" "fresh-id"
      { status_code := 200,
        output := some { task_id := "t1", task_status := "SUCCEEDED", video_url := some "" },
        request_id := "" } =
    (Except.ok { video_url := "", task_id := "t1", task_status := "SUCCEEDED",
                 request_id := "fresh-id" }, 1) := by rfl

/-- C5 (amended): the two synchronous wan2.6 image operations raise
their empty-result `RuntimeError` whenever a transport-ok reply
yields zero extracted artifacts; the wan2.2 fetch has no emptiness
check — on a SUCCEEDED reply it fails with an unhandled structural
error when `video_url` is absent, and returns whatever `video_url`
string the reply carries (the empty string included) as a success
otherwise. -/
theorem empty_result_behavior :
    (∀ (k ctx fresh : String) (resp : MultiModalResponse) (out : MultiModalOutput),
      resp.status_code = 200 → resp.output = some out →
      extractResultsGen out.choices = [] →
      imageGenerationWan26Arun (some k) ctx fresh resp =
        (Except.error (PyError.runtimeError "No image URLs found in response"), 1)) ∧
    (∀ (k ctx fresh : String) (resp : MultiModalResponse) (out : MultiModalOutput),
      resp.status_code = 200 → resp.output = some out →
      extractResultsEdit out.choices = [] →
      imageEditWan26Arun (some k) ctx fresh resp =
        (Except.error (PyError.runtimeError "No image found in response"), 1)) ∧
    (∀ (k ctx fresh : String) (resp : VideoSynthesisResponse)
        (out : VideoSynthesisOutput),
      resp.status_code = 200 → resp.output = some out →
      out.task_status = "SUCCEEDED" → out.video_url = none →
      imageToVideoFlWan22FetchArun (some k) ctx fresh resp =
        (Except.error (PyError.attributeError "video_url"), 1)) ∧
    (∀ (k ctx fresh : String) (resp : VideoSynthesisResponse)
        (out : VideoSynthesisOutput) (url : String),
      resp.status_code = 200 → resp.output = some out →
      out.task_status = "SUCCEEDED" → out.video_url = some url →
      imageToVideoFlWan22FetchArun (some k) ctx fresh resp =
        (Except.ok { video_url := url, task_id := out.task_id,
                     task_status := out.task_status,
                     request_id :=
                       pickRequestIdProviderFirst resp.request_id ctx fresh }, 1)) := by
  refine ⟨?_, ?_, ?_, ?_⟩
  · intro k ctx fresh resp out h1 h2 h3
    exact gen_empty_results_shape k ctx fresh resp out h1 h2 h3
  · intro k ctx fresh resp out h1 h2 h3
    exact edit_empty_results_shape k ctx fresh resp out h1 h2 h3
  · intro k ctx fresh resp out h1 h2 hsucc h5
    exact wan22_fetch_missing_url_shape k ctx fresh resp out h1 h2
      (by rw [hsucc]; decide) (by rw [hsucc]; decide) h5
  · intro k ctx fresh resp out url h1 h2 hsucc h5
    exact wan22_fetch_success_shape k ctx fresh resp out url h1 h2
      (by rw [hsucc]; decide) (by rw [hsucc]; decide) h5

/-- C5 witness: the amended claim at concrete replies (a choices list
with no image records for each image operation; a SUCCEEDED wan2.2
reply without `video_url`; one with an empty `video_url`). -/
theorem empty_result_behavior_witness :
    imageGenerationWan26Arun (some "sk-key") "" "fresh-id"
      { status_code := 200, output := some { choices := [MessageContent.other] },
        request_id := "r1" } =
      (Except.error (PyError.runtimeError "No image URLs found in response"), 1) ∧
    imageEditWan26Arun (some "sk-key") "" "fresh-id"
      { status_code := 200, output := some { choices := [MessageContent.list []] },
        request_id := "r1" } =
      (Except.error (PyError.runtimeError "No image found in response"), 1) ∧
    imageToVideoFlWan22FetchArun (some "sk-key") "" "fresh-id"
      { status_code := 200,
        output := some { task_id := "t1", task_status := "SUCCEEDED", video_url := none },
        request_id := "r1" } =
      (Except.error (PyError.attributeError "video_url"), 1) ∧
    imageToVideoFlWan22FetchArun (some "sk-key") "ctx-id" "fresh-id"
      { status_code := 200,
        output := some { task_id := "t1", task_status := "SUCCEEDED", video_url := some "" },
        request_id := "" } =
      (Except.ok { video_url := "", task_id := "t1", task_status := "SUCCEEDED",
                   request_id := pickRequestIdProviderFirst "" "ctx-id" "fresh-id" }, 1) :=
  ⟨empty_result_behavior.1 "sk-key" "" "fresh-id" _ _ rfl rfl rfl,
   empty_result_behavior.2.1 "sk-key" "" "fresh-id" _ _ rfl rfl rfl,
   empty_result_behavior.2.2.1 "sk-key" "" "fresh-id" _ _ rfl rfl rfl rfl,
   empty_result_behavior.2.2.2 "sk-key" "ctx-id" "fresh-id" _ _ "" rfl rfl rfl rfl⟩

/-- C6 counterexample: the wan2.6 video-to-video submit, with no
caller correlation id and a provider reply that carries
`request_id = "r1"`, returns the freshly generated id rather than the
provider's — refuting "taken … else from the provider reply, else
freshly generated". -/
theorem v2vSubmit_ignores_provider_request_id :
    videoToVideoW26SubmitArun (some "sk-key") "" "fresh-id" 200
      { output := some { task_id := some "t1", task_status := some "PENDING" },
        request_id := some "r1" } =
    (Except.ok { task_id := "t1", request_id := "fresh-id" }, 1) ∧
    "fresh-id" ≠ "r1" := ⟨by rfl, by decide⟩

/-- C6 (amended): every successful submit/fetch/generation call
returns a non-empty `request_id` (the fresh uuid being non-empty).
The precedence caller-context, then provider reply, then fresh holds
for the wan2.2 submit and the two wan2.6 image operations; the
wan2.2 fetch prefers the provider's id over the caller context; the
wan2.6 video-to-video submit uses the caller context else the fresh
id and never consults the provider's. -/
theorem request_id_nonempty_and_precedence :
    (∀ ctx provider fresh : String, fresh ≠ "" →
      pickRequestIdCtxFirst ctx provider fresh ≠ "") ∧
    (∀ provider ctx fresh : String, fresh ≠ "" →
      pickRequestIdProviderFirst provider ctx fresh ≠ "") ∧
    (∀ (k ctx fresh : String) (resp : MultiModalResponse) (out : MultiModalOutput),
      fresh ≠ "" → resp.status_code = 200 → resp.output = some out →
      extractResultsGen out.choices ≠ [] →
      ∃ o, (imageGenerationWan26Arun (some k) ctx fresh resp).1 = Except.ok o ∧
        o.request_id = pickRequestIdCtxFirst ctx resp.request_id fresh ∧
        o.request_id ≠ "") ∧
    (∀ (k ctx fresh : String) (resp : MultiModalResponse) (out : MultiModalOutput),
      fresh ≠ "" → resp.status_code = 200 → resp.output = some out →
      extractResultsEdit out.choices ≠ [] →
      ∃ o, (imageEditWan26Arun (some k) ctx fresh resp).1 = Except.ok o ∧
        o.request_id = pickRequestIdCtxFirst ctx resp.request_id fresh ∧
        o.request_id ≠ "") ∧
    (∀ (k ctx fresh : String) (resp : VideoSynthesisResponse)
        (out : VideoSynthesisOutput),
      fresh ≠ "" → resp.status_code = 200 → resp.output = some out →
      out.task_status = "PENDING" →
      ∃ o, (imageToVideoFlWan22SubmitArun (some k) ctx fresh resp).1 = Except.ok o ∧
        o.request_id = pickRequestIdCtxFirst ctx resp.request_id fresh ∧
        o.request_id ≠ "") ∧
    (∀ (k ctx fresh : String) (resp : VideoSynthesisResponse)
        (out : VideoSynthesisOutput) (url : String),
      fresh ≠ "" → resp.status_code = 200 → resp.output = some out →
      out.task_status = "SUCCEEDED" → out.video_url = some url →
      ∃ o, (imageToVideoFlWan22FetchArun (some k) ctx fresh resp).1 = Except.ok o ∧
        o.request_id = pickRequestIdProviderFirst resp.request_id ctx fresh ∧
        o.request_id ≠ "") ∧
    (∀ (k ctx fresh : String) (rj : V2VReplyJson) (out : V2VOutputJson)
        (tid : String),
      fresh ≠ "" → rj.output = some out → out.task_id = some tid →
      ∃ o, (videoToVideoW26SubmitArun (some k) ctx fresh 200 rj).1 = Except.ok o ∧
        o.request_id = (if ctx = "" then fresh else ctx) ∧
        o.request_id ≠ "") := by
  refine ⟨pickRequestIdCtxFirst_ne_empty, pickRequestIdProviderFirst_ne_empty,
    ?_, ?_, ?_, ?_, ?_⟩
  · intro k ctx fresh resp out hf h1 h2 h3
    refine ⟨{ results := extractResultsGen out.choices,
              request_id := pickRequestIdCtxFirst ctx resp.request_id fresh }, ?_, rfl,
            pickRequestIdCtxFirst_ne_empty ctx resp.request_id fresh hf⟩
    rw [gen_success_shape k ctx fresh resp out h1 h2 h3]
  · intro k ctx fresh resp out hf h1 h2 h3
    refine ⟨{ results := extractResultsEdit out.choices,
              request_id := pickRequestIdCtxFirst ctx resp.request_id fresh }, ?_, rfl,
            pickRequestIdCtxFirst_ne_empty ctx resp.request_id fresh hf⟩
    rw [edit_success_shape k ctx fresh resp out h1 h2 h3]
  · intro k ctx fresh resp out hf h1 h2 hst
    refine ⟨{ task_id := out.task_id, task_status := out.task_status,
              request_id := pickRequestIdCtxFirst ctx resp.request_id fresh }, ?_, rfl,
            pickRequestIdCtxFirst_ne_empty ctx resp.request_id fresh hf⟩
    rw [wan22_submit_success_shape k ctx fresh resp out h1 h2
      (by rw [hst]; decide) (by rw [hst]; decide)]
  · intro k ctx fresh resp out url hf h1 h2 hst h5
    refine ⟨{ video_url := url, task_id := out.task_id, task_status := out.task_status,
              request_id := pickRequestIdProviderFirst resp.request_id ctx fresh }, ?_, rfl,
            pickRequestIdProviderFirst_ne_empty resp.request_id ctx fresh hf⟩
    rw [wan22_fetch_success_shape k ctx fresh resp out url h1 h2
      (by rw [hst]; decide) (by rw [hst]; decide) h5]
  · intro k ctx fresh rj out tid hf h1 h2
    refine ⟨{ task_id := tid, request_id := if ctx = "" then fresh else ctx },
            ?_, rfl, ?_⟩
    · rw [v2v_submit_success_shape k ctx fresh rj out tid h1 h2]
    · show (if ctx = "" then fresh else ctx) ≠ ""
      by_cases hc : ctx = ""
      · simp [hc]; assumption
      · simp [hc]

/-- C6 witness: the amended claim at concrete inputs — the two pick
functions, a successful image generation (provider id used when the
context is empty), and a wan2.6 video-to-video submit whose reply
carries a provider id that is ignored in favor of the fresh one. -/
theorem request_id_nonempty_and_precedence_witness :
    pickRequestIdCtxFirst "" "r1" "fresh-id" ≠ "" ∧
    pickRequestIdProviderFirst "" "" "fresh-id" ≠ "" ∧
    (∃ o, (imageGenerationWan26Arun (some "sk-key") "" "fresh-id"
        { status_code := 200,
          output := some { choices := [MessageContent.list
            [ContentItem.record [("image", "https://img/1.png")]]] },
          request_id := "r1" }).1 = Except.ok o ∧
      o.request_id = pickRequestIdCtxFirst "" "r1" "fresh-id" ∧
      o.request_id ≠ "") ∧
    (∃ o, (videoToVideoW26SubmitArun (some "sk-key") "" "fresh-id" 200
        { output := some { task_id := some "t1", task_status := some "PENDING" },
          request_id := some "r1" }).1 = Except.ok o ∧
      o.request_id = (if "" = "" then "fresh-id" else "") ∧
      o.request_id ≠ "") :=
  ⟨request_id_nonempty_and_precedence.1 "" "r1" "fresh-id" (by decide),
   request_id_nonempty_and_precedence.2.1 "" "" "fresh-id" (by decide),
   request_id_nonempty_and_precedence.2.2.1 "sk-key" "" "fresh-id" _ _
     (by decide) rfl rfl (by decide),
   request_id_nonempty_and_precedence.2.2.2.2.2.2 "sk-key" "" "fresh-id" _ _ "t1"
     (by decide) rfl rfl⟩

/-- C7: for every reply whose choices each carry a list of dict-shaped
(record) content items — artifacts nested inside multiple choice
records — both wan2.6 image parsers extract exactly the spec-defined
discoverable artifact references: every choice is traversed, every
item's image reference is kept, in encounter order, none dropped. -/
theorem multi_choice_artifacts_complete_in_order
    (choices : List MessageContent)
    (h : choices.all isRecordListChoice = true) :
    extractResultsGen choices = specDiscoverableRefs choices ∧
    extractResultsEdit choices = specDiscoverableRefs choices := by
  induction choices with
  | nil => exact ⟨rfl, rfl⟩
  | cons c rest ih =>
    rw [List.all_cons, Bool.and_eq_true] at h
    obtain ⟨hc, hrest⟩ := h
    obtain ⟨ih1, ih2⟩ := ih hrest
    constructor
    · show genChoiceArtifacts c ++ extractResultsGen rest =
        specChoiceImageRefs c ++ specDiscoverableRefs rest
      rw [ih1]
      cases c with
      | list items =>
        show items.filterMap genItemRef ++ specDiscoverableRefs rest =
          items.filterMap specItemImageRef ++ specDiscoverableRefs rest
        rw [filterMap_gen_eq_spec]
      | str s => simp [isRecordListChoice] at hc
      | record fs => simp [isRecordListChoice] at hc
      | other => simp [isRecordListChoice] at hc
    · show editChoiceArtifacts c ++ extractResultsEdit rest =
        specChoiceImageRefs c ++ specDiscoverableRefs rest
      rw [ih2]
      cases c with
      | list items =>
        show items.filterMap editItemRef ++ specDiscoverableRefs rest =
          items.filterMap specItemImageRef ++ specDiscoverableRefs rest
        rw [filterMap_edit_eq_spec items hc]
      | str s => simp [isRecordListChoice] at hc
      | record fs => simp [isRecordListChoice] at hc
      | other => simp [isRecordListChoice] at hc

/-- C7 witness: three distinct image references spread over two choice
records are all preserved, in encounter order, by both parsers. -/
theorem multi_choice_artifacts_complete_in_order_witness :
    ([MessageContent.list [ContentItem.record [("image", "https://img/1.png")],
                           ContentItem.record [("image", "https://img/2.png")]],
      MessageContent.list [ContentItem.record [("image", "https://img/3.png")]]].all
        isRecordListChoice = true) ∧
    (extractResultsGen
        [MessageContent.list [ContentItem.record [("image", "https://img/1.png")],
                              ContentItem.record [("image", "https://img/2.png")]],
         MessageContent.list [ContentItem.record [("image", "https://img/3.png")]]] =
      specDiscoverableRefs
        [MessageContent.list [ContentItem.record [("image", "https://img/1.png")],
                              ContentItem.record [("image", "https://img/2.png")]],
         MessageContent.list [ContentItem.record [("image", "https://img/3.png")]]] ∧
     extractResultsEdit
        [MessageContent.list [ContentItem.record [("image", "https://img/1.png")],
                              ContentItem.record [("image", "https://img/2.png")]],
         MessageContent.list [ContentItem.record [("image", "https://img/3.png")]]] =
      specDiscoverableRefs
        [MessageContent.list [ContentItem.record [("image", "https://img/1.png")],
                              ContentItem.record [("image", "https://img/2.png")]],
         MessageContent.list [ContentItem.record [("image", "https://img/3.png")]]]) :=
  ⟨by decide, multi_choice_artifacts_complete_in_order _ (by decide)⟩

/-- C8: with a failing credential lookup, every embedded operation
raises the configuration `ValueError` and performs zero transport
calls, whatever the inputs and whatever reply the provider would have
given. -/
theorem missing_credential_errors_before_transport :
    (∀ (ctx fresh : String) (resp : MultiModalResponse),
      imageGenerationWan26Arun none ctx fresh resp =
        (Except.error (PyError.valueError "Please set valid DASHSCOPE_API_KEY!"), 0)) ∧
    (∀ (ctx fresh : String) (resp : MultiModalResponse),
      imageEditWan26Arun none ctx fresh resp =
        (Except.error (PyError.valueError "Please set valid DASHSCOPE_API_KEY!"), 0)) ∧
    (∀ (ctx fresh : String) (resp : VideoSynthesisResponse),
      imageToVideoFlWan22SubmitArun none ctx fresh resp =
        (Except.error (PyError.valueError "Please set valid DASHSCOPE_API_KEY!"), 0)) ∧
    (∀ (ctx fresh : String) (resp : VideoSynthesisResponse),
      imageToVideoFlWan22FetchArun none ctx fresh resp =
        (Except.error (PyError.valueError "Please set valid DASHSCOPE_API_KEY!"), 0)) ∧
    (∀ (ctx fresh : String) (st : Nat) (rj : V2VReplyJson),
      videoToVideoW26SubmitArun none ctx fresh st rj =
        (Except.error (PyError.valueError "Please set valid DASHSCOPE_API_KEY!"), 0)) :=
  ⟨fun _ _ _ => rfl, fun _ _ _ => rfl, fun _ _ _ => rfl, fun _ _ _ => rfl,
   fun _ _ _ _ => rfl⟩

/-- C9: in the wan2.6 image generation payload, a caller-supplied size
of exactly `"1024*1024"` is omitted from the parameters dict, while
every other non-empty size value is forwarded unchanged under the
`"size"` key. -/
theorem size_default_omitted_from_payload (args : ImageGenerationWan26Input) :
    (args.size = some "1024*1024" →
      dictLookup "size" (buildParametersGen args) = none) ∧
    (∀ s, args.size = some s → s ≠ "" → s ≠ "1024*1024" →
      dictLookup "size" (buildParametersGen args) = some (ParamValue.str s)) := by
  obtain ⟨p, np, sz, pe, n, sd, wm⟩ := args
  constructor
  · intro h
    simp only [] at h
    subst h
    cases np <;> cases pe <;> cases n <;> cases sd <;> cases wm <;>
      simp [buildParametersGen, dictLookup_append, dictLookup] <;>
      split_ifs <;> simp_all [dictLookup]
  · intro s hs hne hne2
    simp only [] at hs
    subst hs
    cases np <;> cases pe <;> cases n <;> cases sd <;> cases wm <;>
      simp [buildParametersGen, dictLookup_append, dictLookup, hne, hne2] <;>
      split_ifs <;> simp_all [dictLookup]

/-- C9 witness: the claim at two concrete inputs — the default size is
dropped, a custom size is forwarded. -/
theorem size_default_omitted_from_payload_witness :
    dictLookup "size"
      (buildParametersGen
        { prompt := "a cat", negative_prompt := some "blurry",
          size := some "1024*1024", prompt_extend := some true,
          n := some 2, seed := some 7, watermark := some false }) = none ∧
    dictLookup "size"
      (buildParametersGen
        { prompt := "a cat", negative_prompt := none,
          size := some "768*1440", prompt_extend := none,
          n := some 1, seed := none, watermark := none }) =
      some (ParamValue.str "768*1440") :=
  ⟨(size_default_omitted_from_payload _).1 rfl,
   (size_default_omitted_from_payload _).2 "768*1440" rfl (by decide) (by decide)⟩

/-- C10: on a reply whose single choice carries a bare string content
that does not start with `http://` or `https://`, the wan2.6
generation component returns that string as its only artifact while
the wan2.6 edit component extracts zero artifacts and raises its
empty-result error — the two parsers disagree on string-shaped
content. -/
theorem gen_edit_parsers_disagree_on_plain_string :
    imageGenerationWan26Arun (some "sk-key") "" "fresh-id"
      { status_code := 200,
        output := some { choices := [MessageContent.str "a gray cat"] },
        request_id := "r1" } =
    (Except.ok { results := ["a gray cat"], request_id := "r1" }, 1) ∧
    imageEditWan26Arun (some "sk-key") "" "fresh-id"
      { status_code := 200,
        output := some { choices := [MessageContent.str "a gray cat"] },
        request_id := "r1" } =
    (Except.error (PyError.runtimeError "No image found in response"), 1) :=
  ⟨by rfl, by rfl⟩

end AgentscopeBricks
